import Mathlib

/-!
# Verification of the `code_reviewer` repository

Shallow embedding, in Lean 4, of the core algorithms of the
`code_reviewer` Python repository:

* `ast_analyzer.py` — structure extraction and cyclomatic complexity,
* `git_analyzer.py` — diff parsing and addition/deletion counting,
* `code_reviewer.py` — two-tier response validation,
* `test_generator.py` — test-pattern discovery and test-file placement.

Pure functions are translated directly; file I/O, the git provider and
the network call to the reasoning engine are modelled as explicit input
parameters (the value the call would have produced).  Python machine
integers are modelled as `Int`/`Nat`, Python floats as `Rat`, fallible
code as `Except`.
-/

namespace CodeReviewer

/-! ## Python string primitives

Helpers mirroring the Python `str` operations used by the sources.
Strings are handled as their character lists (`String.data`). -/

/-- Characters that Python's default `str.strip()` removes. -/
def pyIsSpace (c : Char) : Bool :=
  c = ' ' || c = '\t' || c = '\n' || c = '\r' || c = '\x0b' || c = '\x0c'

/-- `str.strip()` on a character list: drop whitespace on both ends. -/
def pyStripList (cs : List Char) : List Char :=
  ((cs.dropWhile pyIsSpace).reverse.dropWhile pyIsSpace).reverse

/-- `str.strip()`. -/
def pyStrip (s : String) : String :=
  ⟨pyStripList s.data⟩

/-- `sub.isPrefixOf`-style match at the head of `cs`. -/
def pyMatchesAt (pat cs : List Char) : Bool :=
  List.isPrefixOf pat cs

/-- `str.find(sub, start)` on character lists: smallest index `≥ start`
where `pat` occurs, or `-1`.  (Python's `find` with a non-empty needle;
an empty needle is never used by the sources.) -/
def pyFindAux : List Char → List Char → Nat → Int
  | _, [], _ => -1
  | pat, c :: rest, idx =>
    if pyMatchesAt pat (c :: rest) then (idx : Int)
    else pyFindAux pat rest (idx + 1)

/-- `s.find(pat, start)`: search starts at character index `start`. -/
def pyFind (s pat : String) (start : Nat) : Int :=
  pyFindAux pat.data (s.data.drop start) start

/-- `pat in s` (Python substring membership). -/
def pyContains (s pat : String) : Bool :=
  pyFind s pat 0 ≥ 0

/-- Python slice `s[a:b]` where `a` is a non-negative index and `b` may
be negative (counted from the end, as `find`'s `-1` result is used as a
slice bound directly in `_parse_review_response`). -/
def pySlice (s : String) (a : Nat) (b : Int) : String :=
  let n := s.data.length
  let e : Nat := if b < 0 then ((n : Int) + b).toNat else min b.toNat n
  ⟨(s.data.take e).drop a⟩

/-- Python slice `s[:k]` (`response_text[:500]`). -/
def pyTake (s : String) (k : Nat) : String :=
  ⟨s.data.take k⟩

/-- Fuel-bounded core of Python's `str.count(sub)`: at a match, skip
the matched characters; otherwise advance one character.  Each step
consumes at least one character, so `cs.length` fuel always suffices
(an exhausted-fuel return of `0` coincides with the empty-input
case). -/
def pyCountAux : Nat → List Char → List Char → Nat
  | 0, _, _ => 0
  | fuel + 1, cs, pat =>
    if pat ≠ [] ∧ pyMatchesAt pat cs then
      1 + pyCountAux fuel (cs.drop pat.length) pat
    else
      match cs with
      | [] => 0
      | _ :: t => pyCountAux fuel t pat

/-- Python `str.count(sub)` for a non-empty `sub`: non-overlapping
occurrences, scanning left to right. -/
def pyCountList (cs pat : List Char) : Nat :=
  pyCountAux cs.length cs pat

/-- `s.count(sub)`. -/
def pyCount (s pat : String) : Nat :=
  pyCountList s.data pat.data

/-- Python `str.splitlines()`: split at `\n`, `\r\n` and `\r`, with no
trailing empty line (the other, exotic line boundaries Python also
recognises do not occur in the analysed inputs). -/
def pySplitlinesList : List Char → List (List Char)
  | [] => []
  | '\r' :: '\n' :: t => [] :: pySplitlinesList t
  | '\n' :: t => [] :: pySplitlinesList t
  | '\r' :: t => [] :: pySplitlinesList t
  | a :: t =>
    match pySplitlinesList t with
    | [] => [[a]]
    | l :: ls => (a :: l) :: ls

/-- `s.splitlines()`. -/
def pySplitlines (s : String) : List String :=
  (pySplitlinesList s.data).map (⟨·⟩)

/-- `s.split("\n")` on character lists: unlike `splitlines` this keeps a
trailing empty fragment.  Used as the line decomposition of a patch body
when characterising the `"\n+"` counting heuristic. -/
def splitNl : List Char → List (List Char)
  | [] => [[]]
  | a :: t =>
    if a = '\n' then [] :: splitNl t
    else
      match splitNl t with
      | [] => [[a]]
      | l :: ls => (a :: l) :: ls

/-- `str.startswith(p)` on character lists. -/
def pyStartsWith (cs pat : List Char) : Bool :=
  List.isPrefixOf pat cs

/-! ## `ast_analyzer.py` — the Python syntax tree

A Python AST node, keeping exactly the distinctions `ASTAnalyzer` tests
for: `ast.If` / `ast.While` / `ast.For` / `ast.ExceptHandler` (the
complexity counters), `ast.BoolOp` (operands in `values`),
`ast.FunctionDef` / `ast.AsyncFunctionDef` (carrying the source-text
renderings the analyzer obtains via `ast.unparse`), `ast.ClassDef`,
`ast.Assign`, `ast.Import` / `ast.ImportFrom`; every other node kind is
`otherNode`.  Each constructor's trailing list holds all of the node's
child nodes, in the sense of `ast.iter_child_nodes`. -/
inductive PyNode where
  | ifStmt (children : List PyNode)
  | whileStmt (children : List PyNode)
  | forStmt (children : List PyNode)
  | exceptHandler (children : List PyNode)
  | boolOp (values : List PyNode)
  | functionDef (name : String) (lineno : Nat) (endLineno : Option Nat)
      (args : List (String × Option String)) (returns : Option String)
      (isAsync : Bool) (docstring : Option String) (decorators : List String)
      (body : List PyNode)
  | classDef (name : String) (lineno : Nat) (endLineno : Option Nat)
      (bases : List String) (docstring : Option String) (decorators : List String)
      (body : List PyNode)
  | assign (targetName : Option String) (children : List PyNode)
  | importStmt (aliases : List (String × Option String)) (lineno : Nat)
  | importFrom (module : Option String) (names : List String) (lineno : Nat)
  | otherNode (children : List PyNode)
deriving BEq

/-! `ast.walk(n)`: the node itself and all of its descendants.  CPython
yields them breadth-first; every use in the analyzer (a sum, filters,
membership tests) depends only on which nodes appear, so the traversal
is embedded depth-first. -/
mutual

/-- `ast.walk` on one node. -/
def walkNodes : PyNode → List PyNode
  | .ifStmt cs => .ifStmt cs :: walkList cs
  | .whileStmt cs => .whileStmt cs :: walkList cs
  | .forStmt cs => .forStmt cs :: walkList cs
  | .exceptHandler cs => .exceptHandler cs :: walkList cs
  | .boolOp vs => .boolOp vs :: walkList vs
  | .functionDef n l e a r ia d dec b =>
      .functionDef n l e a r ia d dec b :: walkList b
  | .classDef n l e bs d dec b =>
      .classDef n l e bs d dec b :: walkList b
  | .assign t cs => .assign t cs :: walkList cs
  | .importStmt al l => [.importStmt al l]
  | .importFrom m ns l => [.importFrom m ns l]
  | .otherNode cs => .otherNode cs :: walkList cs

/-- `ast.walk` over a list of sibling nodes. -/
def walkList : List PyNode → List PyNode
  | [] => []
  | n :: ns => walkNodes n ++ walkList ns

end

/-- The complexity contribution of one walked node, read off the loop in
`ASTAnalyzer._parse_function`: `+1` for `ast.If`, `ast.While`, `ast.For`
and `ast.ExceptHandler`, `+ (len(values) - 1)` for `ast.BoolOp`, `0`
otherwise. -/
def nodeWeight : PyNode → Int
  | .ifStmt _ => 1
  | .whileStmt _ => 1
  | .forStmt _ => 1
  | .exceptHandler _ => 1
  | .boolOp vs => (vs.length : Int) - 1
  | _ => 0

/-- `complexity = 1; for child in ast.walk(node): ...` in
`ASTAnalyzer._parse_function`. -/
def complexityOf (n : PyNode) : Int :=
  1 + ((walkNodes n).map nodeWeight).sum

/-- `FunctionInfo` dataclass. -/
structure FunctionInfo where
  name : String
  lineno : Nat
  end_lineno : Nat
  args : List String
  returns : Option String
  is_async : Bool
  is_method : Bool
  docstring : Option String
  decorators : List String
  complexity : Int
deriving DecidableEq, Repr

/-- Argument rendering in `_parse_function`: `arg.arg`, plus
`": " + ast.unparse(arg.annotation)` when annotated. -/
def argText : String × Option String → String
  | (a, none) => a
  | (a, some ann) => a ++ ": " ++ ann

/-- `ASTAnalyzer._parse_function`, defined on `functionDef` nodes
(`none` on any other node kind, which the source never passes in).
`end_lineno if end_lineno else lineno` is modelled by `Option.getD`
(line numbers are 1-based, so `0` never arises). -/
def parse_function : PyNode → Option FunctionInfo
  | .functionDef name lineno endLineno args returns isAsync docstring decorators body =>
    some
      { name := name
        lineno := lineno
        end_lineno := endLineno.getD lineno
        args := args.map argText
        returns := returns
        is_async := isAsync
        is_method := false
        docstring := docstring
        decorators := decorators
        complexity :=
          complexityOf
            (.functionDef name lineno endLineno args returns isAsync docstring
              decorators body) }
  | _ => none

/-- `ClassInfo` dataclass. -/
structure ClassInfo where
  name : String
  lineno : Nat
  end_lineno : Nat
  bases : List String
  methods : List FunctionInfo
  docstring : Option String
  decorators : List String
deriving DecidableEq, Repr

/-- `ImportInfo` dataclass. -/
structure ImportInfo where
  module : String
  names : List String
  lineno : Nat
  is_from_import : Bool
deriving DecidableEq, Repr

/-- `CodeMetrics` dataclass (Python floats as `Rat`, the Halstead dict
as an association list). -/
structure CodeMetrics where
  lines_of_code : Nat
  cyclomatic_complexity : Rat
  maintainability_index : Rat
  halstead_metrics : List (String × Rat)
  functions_count : Nat
  classes_count : Nat
  average_function_complexity : Rat
deriving DecidableEq, Repr

/-- `FileAnalysis` dataclass. -/
structure FileAnalysis where
  file_path : String
  functions : List FunctionInfo := []
  classes : List ClassInfo := []
  imports : List ImportInfo := []
  global_variables : List String := []
  metrics : Option CodeMetrics := none
  parse_errors : List String := []
deriving DecidableEq, Repr

/-- Is a `functionDef` node? -/
def isFunctionDefNode : PyNode → Bool
  | .functionDef .. => true
  | _ => false

/-- `ASTAnalyzer._is_method`: the node occurs in the `body` of some
`ClassDef` anywhere in the walked tree.  Python compares the nodes by
object identity; here structurally equal nodes are identified, which
coincides with identity on trees without duplicated subtrees. -/
def is_method (node tree : PyNode) : Bool :=
  (walkNodes tree).any fun parent =>
    match parent with
    | .classDef _ _ _ _ _ _ body => body.contains node
    | _ => false

/-- `ASTAnalyzer._extract_functions`: every walked `FunctionDef` /
`AsyncFunctionDef` that is not a method. -/
def extract_functions (tree : PyNode) : List FunctionInfo :=
  (walkNodes tree).filterMap fun n =>
    match n with
    | .functionDef .. => if is_method n tree then none else parse_function n
    | _ => none

/-- `ASTAnalyzer._parse_class` on a `classDef` node (`none` otherwise):
methods are the direct `FunctionDef` children of the class body, parsed
by `_parse_function` with `is_method` set to `true`. -/
def parse_class : PyNode → Option ClassInfo
  | .classDef name lineno endLineno bases docstring decorators body =>
    some
      { name := name
        lineno := lineno
        end_lineno := endLineno.getD lineno
        bases := bases
        methods :=
          body.filterMap fun item =>
            match parse_function item with
            | some fi => some { fi with is_method := true }
            | none => none
        docstring := docstring
        decorators := decorators }
  | _ => none

/-- `ASTAnalyzer._extract_classes`. -/
def extract_classes (tree : PyNode) : List ClassInfo :=
  (walkNodes tree).filterMap parse_class

/-- `ASTAnalyzer._extract_imports`: one `ImportInfo` per alias of an
`ast.Import`, one per `ast.ImportFrom` (missing module becomes `""`). -/
def extract_imports (tree : PyNode) : List ImportInfo :=
  (walkNodes tree).flatMap fun n =>
    match n with
    | .importStmt aliases lineno =>
        aliases.map fun (nm, asname) =>
          { module := nm
            names := [asname.getD nm]
            lineno := lineno
            is_from_import := false }
    | .importFrom module names lineno =>
        [{ module := module.getD ""
           names := names
           lineno := lineno
           is_from_import := true }]
    | _ => []

/-- `ASTAnalyzer._extract_global_variables`: every walked `ast.Assign`
whose first target is a plain name.  (The source's comment says "only
top-level", but the code walks the whole tree; the code is embedded.) -/
def extract_global_variables (tree : PyNode) : List String :=
  (walkNodes tree).filterMap fun n =>
    match n with
    | .assign (some id) _ => some id
    | _ => none

/-- Outcomes of the three independent `radon` calls inside
`_calculate_metrics`; the library is external, so each call's result
(or the fact that it threw) is an input to the model. -/
structure RadonOutcome where
  cc : Except Unit (List Rat)
  mi : Except Unit Rat
  halstead : Except Unit (Rat × Rat × Rat)

/-- `ASTAnalyzer._calculate_metrics`: non-blank line count from the raw
source, and the three radon sub-computations each failing in isolation
to their documented neutral defaults. -/
def calculate_metrics (source_code : String) (analysis : FileAnalysis)
    (radon : RadonOutcome) : CodeMetrics :=
  let lines_of_code := ((pySplitlines source_code).filter fun l => pyStrip l ≠ "").length
  let avg_total : Rat × Rat :=
    match radon.cc with
    | .ok rs => (if rs ≠ [] then rs.sum / (rs.length : Rat) else 1, rs.sum)
    | .error _ => (1, 1)
  let maintainability : Rat :=
    match radon.mi with
    | .ok v => v
    | .error _ => 100
  let halstead_dict : List (String × Rat) :=
    match radon.halstead with
    | .ok (v, d, e) => [("volume", v), ("difficulty", d), ("effort", e)]
    | .error _ => []
  { lines_of_code := lines_of_code
    cyclomatic_complexity := avg_total.2
    maintainability_index := maintainability
    halstead_metrics := halstead_dict
    functions_count := analysis.functions.length
    classes_count := analysis.classes.length
    average_function_complexity := avg_total.1 }

/-- `ASTAnalyzer.analyze_file`.  The two effectful steps are inputs:
`readResult` is what `open(...).read()` produced (`.error msg` when
`OSError` / `UnicodeDecodeError` was raised), and `parseResult` is what
`ast.parse` produced on the source text (`.error msg` on
`SyntaxError`). -/
def analyze_file (file_path : String) (readResult : Except String String)
    (parseResult : String → Except String PyNode) (radon : RadonOutcome) :
    FileAnalysis :=
  let analysis : FileAnalysis := { file_path := file_path }
  match readResult with
  | .error e =>
      { analysis with parse_errors := analysis.parse_errors ++ ["Failed to read file: " ++ e] }
  | .ok source_code =>
    match parseResult source_code with
    | .error e =>
        { analysis with parse_errors := analysis.parse_errors ++ ["Syntax error: " ++ e] }
    | .ok tree =>
      let analysis :=
        { analysis with
          functions := extract_functions tree
          classes := extract_classes tree
          imports := extract_imports tree
          global_variables := extract_global_variables tree }
      { analysis with metrics := some (calculate_metrics source_code analysis radon) }

/-! ## `git_analyzer.py` — diff parsing -/

/-- `DiffInfo` dataclass.  Counts are `Int` as in Python (the source
clamps them with `max(0, ...)`). -/
structure DiffInfo where
  file_path : String
  change_type : String
  additions : Int
  deletions : Int
  diff_content : String
  old_path : Option String := none
deriving DecidableEq, Repr

/-- The GitPython diff item attributes `_parse_diff_index` reads.  The
`diff` attribute is a byte blob: `none` models a falsy value
(`None` / `b""`), `some (.error ())` bytes whose `decode("utf-8")`
raises, `some (.ok s)` bytes decoding to `s`. -/
structure DiffItem where
  new_file : Bool
  deleted_file : Bool
  renamed : Bool
  a_path : Option String
  b_path : Option String
  diff : Option (Except Unit String)

/-- Python truthiness of an optional string (`if diff_item.b_path`). -/
def truthyOptStr : Option String → Bool
  | some s => s ≠ ""
  | none => false

/-- Python `str(x)` on an optional string (`str(None) = "None"`). -/
def pyStrOfOpt : Option String → String
  | some s => s
  | none => "None"

/-- `GitAnalyzer._parse_diff_index`, one `DiffInfo` per diff item:
change-type precedence new → deleted → renamed → modified, destination
path preferred over source path, decode failures degrading to an empty
patch, and the `"\n+"` / `"\n+++"` counting heuristic clamped at 0. -/
def parse_diff_index (diff_index : List DiffItem) : List DiffInfo :=
  diff_index.map fun diff_item =>
    let change_type : String :=
      if diff_item.new_file then "A"
      else if diff_item.deleted_file then "D"
      else if diff_item.renamed then "R"
      else "M"
    let file_path : String :=
      if truthyOptStr diff_item.b_path then pyStrOfOpt diff_item.b_path
      else pyStrOfOpt diff_item.a_path
    let old_path : Option String :=
      if diff_item.renamed then some (pyStrOfOpt diff_item.a_path) else none
    let diff_content : String :=
      match diff_item.diff with
      | none => ""
      | some (.error _) => ""
      | some (.ok s) => s
    let additions : Int :=
      (pyCount diff_content "\n+" : Int) - (pyCount diff_content "\n+++" : Int)
    let deletions : Int :=
      (pyCount diff_content "\n-" : Int) - (pyCount diff_content "\n---" : Int)
    { file_path := file_path
      change_type := change_type
      additions := max 0 additions
      deletions := max 0 deletions
      diff_content := diff_content
      old_path := old_path }

/-- `GitAnalyzer._get_initial_commit_diff`: every staged index entry is
reported as an added file; its patch body prefixes each line of the
file's current content with `+` (an unreadable or undecodable file
degrades to an empty body). -/
def get_initial_commit_diff (indexEntries : List (String × Except Unit String)) :
    List DiffInfo :=
  indexEntries.map fun (path, readResult) =>
    let diff_content : String :=
      match readResult with
      | .ok content =>
          String.intercalate "\n" ((pySplitlines content).map fun line => "+" ++ line)
      | .error _ => ""
    { file_path := path
      change_type := "A"
      additions := if diff_content ≠ "" then (pyCount diff_content "\n+" : Int) else 0
      deletions := 0
      diff_content := diff_content
      old_path := none }

/-- `GitAnalyzer.get_staged_diff`: `index.diff("HEAD")` parsed by
`_parse_diff_index`; when that comparison raises `GitCommandError`
(no commit exists yet) every staged entry is reported via
`_get_initial_commit_diff`. -/
def get_staged_diff (headDiff : Except Unit (List DiffItem))
    (indexEntries : List (String × Except Unit String)) : List DiffInfo :=
  match headDiff with
  | .ok diff_index => parse_diff_index diff_index
  | .error _ => get_initial_commit_diff indexEntries

/-! ## JSON values and `json.loads`

`code_reviewer.py` decodes reasoning-engine replies with the standard
library's `json.loads`; a JSON value and a strict recursive-descent
decoder for it are embedded here.  Python distinguishes `int` from
`float`; both are modelled as `Rat` (no claim depends on the
distinction). -/

inductive Json where
  | null
  | bool (b : Bool)
  | num (q : Rat)
  | str (s : String)
  | arr (items : List Json)
  | obj (entries : List (String × Json))
deriving BEq

/-- Whitespace accepted by the JSON grammar. -/
def jsonIsWs (c : Char) : Bool :=
  c = ' ' || c = '\t' || c = '\n' || c = '\r'

/-- Skip JSON whitespace. -/
def jsonSkipWs (cs : List Char) : List Char :=
  cs.dropWhile jsonIsWs

/-- Hexadecimal digit value. -/
def hexDigitVal (c : Char) : Option Nat :=
  if c.isDigit then some (c.toNat - '0'.toNat)
  else if 'a' ≤ c ∧ c ≤ 'f' then some (c.toNat - 'a'.toNat + 10)
  else if 'A' ≤ c ∧ c ≤ 'F' then some (c.toNat - 'A'.toNat + 10)
  else none

/-- JSON string body after the opening quote: returns the decoded
characters and the input following the closing quote.  Escapes are
decoded as in Python's `json` (a `\uXXXX` escape becomes the code point
directly; surrogate-pair recombination is not modelled, and raw control
characters are rejected as with `strict=True`). -/
def parseJStr : List Char → Option (List Char × List Char)
  | [] => none
  | '"' :: rest => some ([], rest)
  | '\\' :: '"' :: rest => (parseJStr rest).map fun (s, r) => ('"' :: s, r)
  | '\\' :: '\\' :: rest => (parseJStr rest).map fun (s, r) => ('\\' :: s, r)
  | '\\' :: '/' :: rest => (parseJStr rest).map fun (s, r) => ('/' :: s, r)
  | '\\' :: 'b' :: rest => (parseJStr rest).map fun (s, r) => ('\x08' :: s, r)
  | '\\' :: 'f' :: rest => (parseJStr rest).map fun (s, r) => ('\x0c' :: s, r)
  | '\\' :: 'n' :: rest => (parseJStr rest).map fun (s, r) => ('\n' :: s, r)
  | '\\' :: 'r' :: rest => (parseJStr rest).map fun (s, r) => ('\r' :: s, r)
  | '\\' :: 't' :: rest => (parseJStr rest).map fun (s, r) => ('\t' :: s, r)
  | '\\' :: 'u' :: a :: b :: c :: d :: rest =>
    match hexDigitVal a, hexDigitVal b, hexDigitVal c, hexDigitVal d with
    | some va, some vb, some vc, some vd =>
      (parseJStr rest).map fun (s, r) =>
        (Char.ofNat (((va * 16 + vb) * 16 + vc) * 16 + vd) :: s, r)
    | _, _, _, _ => none
  | '\\' :: _ => none
  | c :: rest =>
    if c.toNat < 0x20 then none
    else (parseJStr rest).map fun (s, r) => (c :: s, r)

/-- Decimal digits to a natural number. -/
def digitsToNat (ds : List Char) : Nat :=
  ds.foldl (fun n c => n * 10 + (c.toNat - '0'.toNat)) 0

/-- Exponent part after `e` / `E`. -/
def parseJExp (cs : List Char) : Option (Int × List Char) :=
  let (sgn, cs1) : Int × List Char :=
    match cs with
    | '+' :: r => (1, r)
    | '-' :: r => (-1, r)
    | _ => (1, cs)
  let ds := cs1.takeWhile Char.isDigit
  if ds.isEmpty then none
  else some (sgn * (digitsToNat ds : Int), cs1.dropWhile Char.isDigit)

/-- Fraction and exponent after the integer part of a JSON number. -/
def parseJNumTail (sign : Int) (intPart : Nat) (rest : List Char) :
    Option (Json × List Char) :=
  let fracStep : Option (Nat × Nat × List Char) :=
    match rest with
    | '.' :: rr =>
      let ds := rr.takeWhile Char.isDigit
      if ds.isEmpty then none
      else some (digitsToNat ds, ds.length, rr.dropWhile Char.isDigit)
    | _ => some (0, 0, rest)
  match fracStep with
  | none => none
  | some (fracN, fracLen, r2) =>
    let expStep : Option (Int × List Char) :=
      match r2 with
      | 'e' :: rr => parseJExp rr
      | 'E' :: rr => parseJExp rr
      | _ => some (0, r2)
    match expStep with
    | none => none
    | some (e, r3) =>
      let base : Rat := (intPart : Rat) + (fracN : Rat) / ((10 : Rat) ^ fracLen)
      let scaled : Rat :=
        if 0 ≤ e then base * (10 : Rat) ^ e.toNat else base / ((10 : Rat) ^ (-e).toNat)
      some (.num ((sign : Rat) * scaled), r3)

/-- JSON number, grammar `-?(0|[1-9][0-9]*)(.[0-9]+)?([eE][+-]?[0-9]+)?`. -/
def parseJNum (cs : List Char) : Option (Json × List Char) :=
  let (sign, cs1) : Int × List Char :=
    match cs with
    | '-' :: r => (-1, r)
    | _ => (1, cs)
  match cs1 with
  | '0' :: r => parseJNumTail sign 0 r
  | c :: _ =>
    if c.isDigit then
      parseJNumTail sign (digitsToNat (cs1.takeWhile Char.isDigit))
        (cs1.dropWhile Char.isDigit)
    else none
  | [] => none

/-- Python dict insertion while decoding an object: an existing key is
overwritten in place, a new key is appended. -/
def objInsert : List (String × Json) → String → Json → List (String × Json)
  | [], k, v => [(k, v)]
  | (k', v') :: rest, k, v =>
    if k' = k then (k, v) :: rest else (k', v') :: objInsert rest k v

mutual

/-- One JSON value (leading whitespace allowed), fuel-bounded. -/
def parseJValue : Nat → List Char → Option (Json × List Char)
  | 0, _ => none
  | fuel + 1, cs =>
    match jsonSkipWs cs with
    | 'n' :: 'u' :: 'l' :: 'l' :: rest => some (.null, rest)
    | 't' :: 'r' :: 'u' :: 'e' :: rest => some (.bool true, rest)
    | 'f' :: 'a' :: 'l' :: 's' :: 'e' :: rest => some (.bool false, rest)
    | '"' :: rest => (parseJStr rest).map fun (s, r) => (.str ⟨s⟩, r)
    | '[' :: rest =>
      (match jsonSkipWs rest with
       | ']' :: r => some (.arr [], r)
       | other => parseJArrItems fuel other [])
    | '\x7b' :: rest =>
      (match jsonSkipWs rest with
       | '\x7d' :: r => some (.obj [], r)
       | other => parseJObjItems fuel other [])
    | other => parseJNum other

/-- Array elements after `[` (first element's characters at the head). -/
def parseJArrItems : Nat → List Char → List Json → Option (Json × List Char)
  | 0, _, _ => none
  | fuel + 1, cs, acc =>
    match parseJValue fuel cs with
    | none => none
    | some (v, r) =>
      match jsonSkipWs r with
      | ',' :: r2 => parseJArrItems fuel r2 (acc ++ [v])
      | ']' :: r2 => some (.arr (acc ++ [v]), r2)
      | _ => none

/-- Object members after the opening brace. -/
def parseJObjItems : Nat → List Char → List (String × Json) →
    Option (Json × List Char)
  | 0, _, _ => none
  | fuel + 1, cs, acc =>
    match jsonSkipWs cs with
    | '"' :: r =>
      (match parseJStr r with
       | none => none
       | some (key, r2) =>
         match jsonSkipWs r2 with
         | ':' :: r3 =>
           (match parseJValue fuel r3 with
            | none => none
            | some (v, r4) =>
              let acc' := objInsert acc ⟨key⟩ v
              match jsonSkipWs r4 with
              | ',' :: r5 => parseJObjItems fuel r5 acc'
              | '\x7d' :: r5 => some (.obj acc', r5)
              | _ => none)
         | _ => none)
    | _ => none

end

/-- `json.loads`: one complete value, nothing but whitespace after it.
`.error ()` models a raised `json.JSONDecodeError`. -/
def jsonLoads (s : String) : Except Unit Json :=
  match parseJValue (2 * s.data.length + 4) s.data with
  | some (v, rest) => if (jsonSkipWs rest).isEmpty then .ok v else .error ()
  | none => .error ()

/-! ## `code_reviewer.py` — response validation

Dynamically-typed Python values flowing out of `json.loads` and out of
tool payloads are `Json`; exceptions the interpreter can raise in
`_parse_review_response` / `_build_review_result` are `PyExc`, threaded
through `Except`.  The dataclass fields that Python never type-checks
(`severity`, `summary`, ...) are therefore `Json`-valued; a Python
`list` value is `Json.arr`. -/

/-- The exceptions relevant to the response-validation code paths. -/
inductive PyExc where
  | jsonDecodeError
  | keyError
  | valueError
  | attributeError
  | typeError
deriving DecidableEq, Repr

/-- `x.get(key, default)`: only a `dict` has `.get`; any other value
raises `AttributeError`. -/
def pyDictGet (j : Json) (key : String) (default : Json) : Except PyExc Json :=
  match j with
  | .obj kvs => .ok ((kvs.lookup key).getD default)
  | _ => .error .attributeError

/-- `for x in v`: lists yield their items, strings their characters,
dicts their keys; other values raise `TypeError`. -/
def pyIter (j : Json) : Except PyExc (List Json) :=
  match j with
  | .arr xs => .ok xs
  | .str s => .ok (s.data.map fun c => .str ⟨[c]⟩)
  | .obj kvs => .ok (kvs.map fun kv => .str kv.1)
  | _ => .error .typeError

/-- `int(x)` on a decoded JSON value: numerics truncate toward zero,
booleans become 0/1, integer-looking strings parse (`ValueError`
otherwise), anything else raises `TypeError`. -/
def pyToInt (j : Json) : Except PyExc Int :=
  match j with
  | .num q => .ok (Int.tdiv q.num (q.den : Int))
  | .bool b => .ok (if b then 1 else 0)
  | .str s =>
    let t := (pyStrip s).data
    let (sign, ds) : Int × List Char :=
      match t with
      | '-' :: r => (-1, r)
      | '+' :: r => (1, r)
      | _ => (1, t)
    if ds ≠ [] ∧ ds.all Char.isDigit then .ok (sign * (digitsToNat ds : Int))
    else .error .valueError
  | _ => .error .typeError

/-- `str(x)` for recommendation entries.  Faithful on strings, booleans
and `None`; the exact Python rendering of numbers, lists and dicts is
approximated (no theorem below exercises those cases). -/
def pyStrApprox : Json → String
  | .str s => s
  | .bool b => if b then "True" else "False"
  | .null => "None"
  | .num q => toString q.num
  | .arr _ => "[...]"
  | .obj _ => "..."

/-- `ReviewIssue` dataclass; fields hold whatever the payload supplied
(Python does not check the annotations), so they are `Json`-valued. -/
structure ReviewIssue where
  severity : Json
  file_path : Json
  line_number : Json
  category : Json
  description : Json
  suggestion : Json
  code_example : Json

/-- `ReviewResult` dataclass with its field defaults. -/
structure ReviewResult where
  overall_score : Json
  issues : List ReviewIssue := []
  summary : Json := .str ""
  recommendations : Json := .arr []
  diff_analyzed : String := ""

/-- The `ReviewIssue(...)` construction shared verbatim by
`_parse_review_response` and `_build_review_result`: each field read
with `.get` and its documented default. -/
def buildIssue (issue : Json) : Except PyExc ReviewIssue := do
  let severity ← pyDictGet issue "severity" (.str "MEDIUM")
  let fp ← pyDictGet issue "file_path" (.str "")
  let ln ← pyDictGet issue "line_number" .null
  let cat ← pyDictGet issue "category" (.str "quality")
  let desc ← pyDictGet issue "description" (.str "")
  let sug ← pyDictGet issue "suggestion" (.str "")
  let ce ← pyDictGet issue "code_example" .null
  pure ⟨severity, fp, ln, cat, desc, sug, ce⟩

/-- The fenced-block extraction at the top of
`CodeReviewer._parse_review_response`: prefer a ```` ```json ````
block, then any ```` ``` ```` block, else the whole reply.  A missing
closing fence makes `find` return `-1`, which Python uses as a slice
bound (dropping the last character). -/
def extractJsonText (response_text : String) : String :=
  if pyContains response_text "```json" then
    let start := (pyFind response_text "```json" 0).toNat + 7
    pyStrip (pySlice response_text start (pyFind response_text "```" start))
  else if pyContains response_text "```" then
    let start := (pyFind response_text "```" 0).toNat + 3
    pyStrip (pySlice response_text start (pyFind response_text "```" start))
  else response_text

/-- The fallback result built in the `except` clause of
`_parse_review_response`. -/
def fallbackResult (response_text : String) : ReviewResult :=
  { overall_score := .num 50
    summary := .str (pyTake response_text 500)
    issues := []
    recommendations :=
      .arr [.str "Unable to parse structured review. See summary for details."] }

/-- `CodeReviewer._parse_review_response` (its `diffs` parameter is
unused by the source and dropped).  The `try` body decodes the
extracted text and maps it; `except (json.JSONDecodeError, KeyError,
ValueError)` degrades to `fallbackResult`; any other exception
(notably `AttributeError` / `TypeError`) propagates. -/
def parse_review_response (response_text : String) : Except PyExc ReviewResult :=
  let json_text := extractJsonText response_text
  let body : Except PyExc ReviewResult := do
    let data ←
      match jsonLoads json_text with
      | .ok d => Except.ok d
      | .error _ => Except.error PyExc.jsonDecodeError
    let issuesVal ← pyDictGet data "issues" (.arr [])
    let issueItems ← pyIter issuesVal
    let issues ← issueItems.mapM buildIssue
    let score ← pyDictGet data "overall_score" (.num 50)
    let summary ← pyDictGet data "summary" (.str "")
    let recs ← pyDictGet data "recommendations" (.arr [])
    pure { overall_score := score, issues := issues, summary := summary,
           recommendations := recs }
  match body with
  | .ok r => .ok r
  | .error e =>
    if e = .jsonDecodeError ∨ e = .keyError ∨ e = .valueError then
      .ok (fallbackResult response_text)
    else .error e

/-- `CodeReviewer._build_review_result`: the structured-tier mapping.
`payload.get("issues")` must be a list or is replaced by `[]`; each
item is mapped by the shared `ReviewIssue` construction; recommendation
entries are stringified; the score passes through `int(...)`.  No
`try` surrounds this function, so raised exceptions propagate. -/
def build_review_result (payload : Json) : Except PyExc ReviewResult := do
  let issuesField ← pyDictGet payload "issues" .null
  let issuePayloads : List Json :=
    match issuesField with
    | .arr xs => xs
    | _ => []
  let issues ← issuePayloads.mapM buildIssue
  let recsField ← pyDictGet payload "recommendations" .null
  let recommendations : Json :=
    match recsField with
    | .arr xs => .arr (xs.map fun r => .str (pyStrApprox r))
    | _ => .arr []
  let scoreJ ← pyDictGet payload "overall_score" (.num 50)
  let score ← pyToInt scoreJ
  let summary ← pyDictGet payload "summary" (.str "")
  pure { overall_score := .num (score : Rat), issues := issues,
         summary := summary, recommendations := recommendations }

/-- A content block of the engine reply: a text block or a tool-use
block whose raw `input` attribute is a decoded value (`Json.obj` models
a `dict` input, `Json.str` a string input). -/
inductive Block where
  | text (s : String)
  | toolUse (name : String) (input : Json)

/-- `str(block)` used by the debugging fallback of
`_collect_text_blocks`; the exact Python `repr` is approximated (no
theorem exercises it). -/
def blockRepr : Block → String
  | .text s => "TextBlock: " ++ s
  | .toolUse n _ => "ToolUseBlock: " ++ n

/-- `CodeReviewer._collect_text_blocks`: join all text blocks with a
newline, else fall back to the first block's string rendering. -/
def collect_text_blocks (content : List Block) : String :=
  let texts := content.filterMap fun b =>
    match b with
    | .text s => some s
    | _ => none
  if texts ≠ [] then String.intercalate "\n" texts
  else
    match content with
    | [] => ""
    | b :: _ => blockRepr b

/-- `CodeReviewer._extract_review_tool_payload`: first `submit_review`
tool-use block wins; a `dict` input is returned as-is, a string input
is decoded — and on decode failure the function returns `None`
immediately (aborting the scan); any other input type is skipped. -/
def extract_review_tool_payload : List Block → Option Json
  | [] => none
  | .toolUse name input :: rest =>
    if name = "submit_review" then
      match input with
      | .obj kvs => some (.obj kvs)
      | .str s =>
        (match jsonLoads s with
         | .ok j => some j
         | .error _ => none)
      | _ => extract_review_tool_payload rest
    else extract_review_tool_payload rest
  | .text _ :: rest => extract_review_tool_payload rest

/-- Python truthiness of a decoded value (`if tool_payload:`). -/
def pyTruthy : Json → Bool
  | .null => false
  | .bool b => b
  | .num q => q ≠ 0
  | .str s => s ≠ ""
  | .arr xs => !xs.isEmpty
  | .obj kvs => !kvs.isEmpty

/-- `DiffInfo.change_summary` property. -/
def change_summary (d : DiffInfo) : String :=
  "+" ++ toString d.additions ++ "/-" ++ toString d.deletions

/-- `CodeReviewer._build_diff_context`. -/
def build_diff_context (diffs : List DiffInfo) : String :=
  let header :=
    "# Code Changes Review\n\nTotal files changed: " ++ toString diffs.length ++ "\n"
  let context_parts :=
    diffs.foldl (fun parts diff =>
      let parts := parts ++ ["\n## File: " ++ diff.file_path]
      let parts := parts ++ ["Change type: " ++ diff.change_type]
      let parts := parts ++ ["Changes: " ++ change_summary diff]
      let parts :=
        if truthyOptStr diff.old_path then
          parts ++ ["Renamed from: " ++ pyStrOfOpt diff.old_path]
        else parts
      if diff.diff_content ≠ "" then
        parts ++ ["\n```diff\n" ++ diff.diff_content ++ "\n```"]
      else parts)
      [header]
  String.intercalate "\n" context_parts

/-- The response-handling half of `CodeReviewer._review_diffs`, given
the reply the engine call returned: structured tier when the extracted
payload is truthy, free-text tier otherwise, then `diff_analyzed` is
set on the outcome.  (Prompt construction only feeds the engine call
and is irrelevant to the returned value; the `except anthropic.*`
branches concern transport failures of the call itself, which here has
already succeeded with `content`.) -/
def review_diffs_response (diffs : List DiffInfo) (content : List Block) :
    Except PyExc ReviewResult := do
  let diff_context := build_diff_context diffs
  let result ←
    match extract_review_tool_payload content with
    | some tool_payload =>
      if pyTruthy tool_payload then build_review_result tool_payload
      else parse_review_response (collect_text_blocks content)
    | none => parse_review_response (collect_text_blocks content)
  pure { result with diff_analyzed := diff_context }

/-- `CodeReviewer.review_staged_changes`, parameterised by the staged
diff list and by the engine reply the review call would return. -/
def review_staged_changes (diffs : List DiffInfo) (engineReply : List Block) :
    Except PyExc ReviewResult :=
  if diffs.isEmpty then
    .ok { overall_score := .num 100, summary := .str "No staged changes to review." }
  else review_diffs_response diffs engineReply

/-- `CodeReviewer.review_unstaged_changes`, parameterised likewise. -/
def review_unstaged_changes (diffs : List DiffInfo) (engineReply : List Block) :
    Except PyExc ReviewResult :=
  if diffs.isEmpty then
    .ok { overall_score := .num 100, summary := .str "No unstaged changes to review." }
  else review_diffs_response diffs engineReply

/-! ## `test_generator.py` — pattern discovery and test placement -/

/-- `GeneratedTest` dataclass. -/
structure GeneratedTest where
  test_name : String
  test_code : String
  tested_function : String
  test_file_path : String
  framework : String
deriving DecidableEq, Repr

/-- `TestGenerator._get_test_imports`. -/
def get_test_imports (framework : String) : String :=
  if framework = "pytest" then
    "import pytest\nfrom unittest.mock import Mock, patch"
  else
    "import unittest\nfrom unittest.mock import Mock, patch"

/-- `TestGenerator.write_test_to_file`, with the file system explicit:
`existing` is the target file's current content (`none` when the path
does not exist).  Returns the function's boolean outcome together with
the file content after the call: appending to an existing file (unless
`overwrite`) is skipped with a `false` outcome when `def <test_name>`
already occurs in it; otherwise a fresh file is written as the
framework imports followed by the test body. -/
def write_test_to_file (test : GeneratedTest) (overwrite : Bool)
    (existing : Option String) : Bool × String :=
  match existing, overwrite with
  | some existing_content, false =>
    if pyContains existing_content ("def " ++ test.test_name) then
      (false, existing_content)
    else
      (true, existing_content ++ "\n\n" ++ test.test_code ++ "\n")
  | _, _ =>
    (true, get_test_imports test.framework ++ "\n\n" ++ test.test_code ++ "\n")

/-- The `patterns` dictionary of `_discover_test_patterns` (its fixed
keys as fields; `examples` holds `FunctionInfo` records as in the
source). -/
structure TestPatterns where
  framework : String
  imports : List String
  fixtures : List String
  test_structure : String
  examples : List FunctionInfo
deriving DecidableEq, Repr

/-- The initial `patterns` dictionary:
`framework = config.test_framework`, everything else empty. -/
def basePatterns (defaultFramework : String) : TestPatterns :=
  { framework := defaultFramework
    imports := []
    fixtures := []
    test_structure := ""
    examples := [] }

/-- `ASTAnalyzer.find_test_functions` on an analysed file: the
functions whose name starts with `test_`. -/
def find_test_functions (analysis : FileAnalysis) : List FunctionInfo :=
  analysis.functions.filter fun f => pyStartsWith f.name.data "test_".data

/-- The loop body of `_discover_test_patterns` for one analysed test
file: deduplicated import-module accumulation, up to two example test
functions from this file, and framework detection where a later
`pytest` / `unittest` import overwrites the current value. -/
def discoverStep (patterns : TestPatterns) (analysis : FileAnalysis) : TestPatterns :=
  let imports :=
    analysis.imports.foldl
      (fun acc imp => if imp.module ∈ acc then acc else acc ++ [imp.module])
      patterns.imports
  let test_functions := find_test_functions analysis
  let examples :=
    if !test_functions.isEmpty then patterns.examples ++ test_functions.take 2
    else patterns.examples
  let framework :=
    analysis.imports.foldl
      (fun fw imp =>
        if imp.module = "pytest" then "pytest"
        else if imp.module = "unittest" then "unittest"
        else fw)
      patterns.framework
  { patterns with imports := imports, examples := examples, framework := framework }

/-- `TestGenerator._discover_test_patterns`, with the file-system
interaction explicit: `rootExists` is `Path(test_dir).exists()` and
`testFiles` the analyses of the glob-discovered test files, in glob
order.  At most the first three are folded over.  (The source's
`try/except` skip never fires, since `analyze_file` absorbs its own
failures; a failed file is simply an analysis contributing nothing.) -/
def discover_test_patterns (defaultFramework : String) (rootExists : Bool)
    (testFiles : List FileAnalysis) : TestPatterns :=
  let patterns := basePatterns defaultFramework
  if !rootExists then patterns
  else if testFiles.isEmpty then patterns
  else (testFiles.take 3).foldl discoverStep patterns

/-! ## Specification-side reformulations

Definitions following the specification's wording, for comparison with
the source-derived definitions above. -/

/-- A conditional, loop or exception-handler node — one decision point
in the specification's complexity rule. -/
def isDecisionNode : PyNode → Bool
  | .ifStmt _ => true
  | .whileStmt _ => true
  | .forStmt _ => true
  | .exceptHandler _ => true
  | _ => false

/-- A boolean short-circuit expression node. -/
def isBoolOpNode : PyNode → Bool
  | .boolOp _ => true
  | _ => false

/-- The specification's `k − 1` contribution of one node: `k` operands
for a boolean short-circuit expression, `0` for anything else. -/
def boolOpExtraVal : PyNode → Int
  | .boolOp vs => (vs.length : Int) - 1
  | _ => 0

/-- Total short-circuit contribution over a set of walked nodes. -/
def specShortCircuitExtra (l : List PyNode) : Int :=
  (l.map boolOpExtraVal).sum

/-- Specification reading of the addition count, over *all* lines of the
patch body: lines beginning with `+`, excluding `+++` header lines. -/
def specAddCountAll (content : String) : Nat :=
  ((splitNl content.data).filter fun l =>
    pyStartsWith l ['+'] && !pyStartsWith l ['+', '+', '+']).length

/-- Amended reading of the addition count: as `specAddCountAll`, but a
line at the very start of the patch (not preceded by a newline) is
never counted. -/
def specAddCountTail (content : String) : Nat :=
  ((splitNl content.data).tail.filter fun l =>
    pyStartsWith l ['+'] && !pyStartsWith l ['+', '+', '+']).length

/-- Amended reading of the deletion count (newline-preceded `-` lines,
excluding `---` lines). -/
def specDelCountTail (content : String) : Nat :=
  ((splitNl content.data).tail.filter fun l =>
    pyStartsWith l ['-'] && !pyStartsWith l ['-', '-', '-']).length

/-- The framework-detection fold of one scanned file, as the
specification words it: a later known testing-framework import
overwrites the current value. -/
def fileFrameworkStep (fw : String) (analysis : FileAnalysis) : String :=
  analysis.imports.foldl
    (fun fw imp =>
      if imp.module = "pytest" then "pytest"
      else if imp.module = "unittest" then "unittest"
      else fw)
    fw

/-! ## Concrete example inputs used by the theorems -/

/-- `def f(x):` with a single `if x:` branch (the spec's scenario). -/
def exC1node : PyNode :=
  .functionDef "f" 1 (some 3) [("x", none)] none false none []
    [.ifStmt [.otherNode []]]

/-- What `_parse_function` produces on `exC1node`. -/
def exC1fi : FunctionInfo :=
  { name := "f", lineno := 1, end_lineno := 3, args := ["x"], returns := none
    is_async := false, is_method := false, docstring := none, decorators := []
    complexity := 2 }

/-- A reply holding a `submit_review` tool block with an *empty* payload
next to a free-text block. -/
def exC4content : List Block :=
  [.toolUse "submit_review" (.obj []), .text "not json"]

/-- A reply holding a non-empty `submit_review` payload next to free
text. -/
def exC4structured : List Block :=
  [.toolUse "submit_review" (.obj [("overall_score", .num 80)]), .text "ignored"]

/-- A structured payload whose single issue item lacks every required
field. -/
def exC5payload : Json :=
  .obj [("overall_score", .num 90), ("summary", .str "s"),
        ("issues", .arr [.obj []]), ("recommendations", .arr [])]

/-- The `ReviewIssue` all of whose fields are the documented defaults. -/
def defaultReviewIssue : ReviewIssue :=
  ⟨.str "MEDIUM", .str "", .null, .str "quality", .str "", .str "", .null⟩

/-- A diff item whose patch body is the single line `+a`. -/
def exC7item : DiffItem :=
  { new_file := false, deleted_file := false, renamed := false
    a_path := some "f.py", b_path := some "f.py", diff := some (.ok "+a") }

/-- A diff item whose patch body consists of header lines only. -/
def exC7headerItem : DiffItem :=
  { new_file := false, deleted_file := false, renamed := false
    a_path := some "f.py", b_path := some "f.py"
    diff := some (.ok "--- a/f.py\n+++ b/f.py") }

/-- The change record `_parse_diff_index` produces for
`exC7headerItem`. -/
def exC7headerRecord : DiffInfo :=
  { file_path := "f.py", change_type := "M", additions := 0, deletions := 0
    diff_content := "--- a/f.py\n+++ b/f.py", old_path := none }

/-- The generated test of the spec's placement scenario. -/
def exC8test : GeneratedTest :=
  { test_name := "test_foo"
    test_code := "def test_foo():\n    assert foo() == 1"
    tested_function := "foo"
    test_file_path := "tests/test_x.py"
    framework := "pytest" }

/-- A minimal test function record named `n`. -/
def exTestFn (n : String) : FunctionInfo :=
  { name := n, lineno := 1, end_lineno := 1, args := [], returns := none
    is_async := false, is_method := false, docstring := none, decorators := []
    complexity := 1 }

/-- An analysed test file holding two test functions. -/
def exC9file : FileAnalysis :=
  { file_path := "tests/test_a.py"
    functions := [exTestFn "test_a", exTestFn "test_b"] }

/-! ## Helper lemmas -/

/-- A node that is neither a decision node nor a boolean short-circuit
node contributes no complexity weight. -/
theorem nodeWeight_eq_zero (m : PyNode) (h1 : isDecisionNode m = false)
    (h2 : isBoolOpNode m = false) : nodeWeight m = 0 := by
  cases m <;> simp_all [nodeWeight, isDecisionNode, isBoolOpNode]

/-- The complexity-weight sum over walked nodes splits into the decision
count plus the boolean short-circuit contributions. -/
theorem weight_sum_decomp (l : List PyNode) :
    (l.map nodeWeight).sum = (l.countP isDecisionNode : Int) + specShortCircuitExtra l := by
  induction l with
  | nil => simp [specShortCircuitExtra]
  | cons x xs ih =>
    have hx : nodeWeight x = (if isDecisionNode x then (1 : Int) else 0) + boolOpExtraVal x := by
      cases x <;> simp [nodeWeight, isDecisionNode, boolOpExtraVal]
    by_cases hd : isDecisionNode x <;>
      · simp [specShortCircuitExtra, List.countP_cons, hx, hd, ih]
        omega

/-- A callable whose walked subtree holds no decision node and no
boolean short-circuit node has complexity exactly 1. -/
theorem complexityOf_eq_one (n : PyNode)
    (hall : ∀ m ∈ walkNodes n, isDecisionNode m = false ∧ isBoolOpNode m = false) :
    complexityOf n = 1 := by
  have hz : ((walkNodes n).map nodeWeight).sum = 0 := by
    apply List.sum_eq_zero
    intro w hw
    obtain ⟨m, hm, rfl⟩ := List.mem_map.mp hw
    exact nodeWeight_eq_zero m (hall m hm).1 (hall m hm).2
  simp [complexityOf, hz]

/-! ## Claims -/

/-- C1.  For every callable definition, the computed cyclomatic
complexity equals 1 plus 1 per conditional / loop / exception-handler
node anywhere in the callable's subtree plus `(k − 1)` per boolean
short-circuit expression with `k` operands; a callable with zero
decision points has complexity exactly 1, and `def f(x):` with a single
`if x:` branch has complexity 2. -/
theorem c1_cyclomatic_complexity (n : PyNode) (fi : FunctionInfo)
    (h : parse_function n = some fi) :
    fi.complexity = 1 + ((walkNodes n).countP isDecisionNode : Int)
        + specShortCircuitExtra (walkNodes n) ∧
    ((∀ m ∈ walkNodes n, isDecisionNode m = false ∧ isBoolOpNode m = false) →
       fi.complexity = 1) ∧
    parse_function exC1node = some exC1fi ∧ exC1fi.complexity = 2 := by
  refine ⟨?_, ?_, by decide, by decide⟩
  · cases n <;> simp only [parse_function, Option.some.injEq, reduceCtorEq] at h
    subst h
    simp only [complexityOf]
    rw [weight_sum_decomp]
    ring
  · intro hall
    cases n <;> simp only [parse_function, Option.some.injEq, reduceCtorEq] at h
    subst h
    exact complexityOf_eq_one _ hall

/-- Witness for C1 at the spec's `def f(x): if x:` scenario. -/
theorem c1_cyclomatic_complexity_witness :
    parse_function exC1node = some exC1fi ∧
    exC1fi.complexity = 1 + ((walkNodes exC1node).countP isDecisionNode : Int)
      + specShortCircuitExtra (walkNodes exC1node) :=
  ⟨by decide, (c1_cyclomatic_complexity exC1node exC1fi (by decide)).1⟩

/-- C2.  If `analyze_file` returns a report with non-empty
`parse_errors` (read failure or syntax failure), then its `functions`,
`classes`, `imports` and `global_variables` lists are all empty and
`metrics` is `none`. -/
theorem c2_all_or_nothing (fp : String) (rr : Except String String)
    (pf : String → Except String PyNode) (radon : RadonOutcome)
    (h : (analyze_file fp rr pf radon).parse_errors ≠ []) :
    (analyze_file fp rr pf radon).functions = [] ∧
    (analyze_file fp rr pf radon).classes = [] ∧
    (analyze_file fp rr pf radon).imports = [] ∧
    (analyze_file fp rr pf radon).global_variables = [] ∧
    (analyze_file fp rr pf radon).metrics = none := by
  cases rr with
  | error e => simp [analyze_file]
  | ok src =>
    cases hpf : pf src with
    | error e => simp [analyze_file, hpf]
    | ok tree =>
      exact absurd (by simp [analyze_file, hpf]) h

/-- Witness for C2 at a concrete read failure. -/
theorem c2_all_or_nothing_witness :
    (analyze_file "a.py" (.error "boom") (fun _ => .error "unused")
        ⟨.error (), .error (), .error ()⟩).parse_errors ≠ [] ∧
    (analyze_file "a.py" (.error "boom") (fun _ => .error "unused")
        ⟨.error (), .error (), .error ()⟩).metrics = none :=
  ⟨by decide,
   (c2_all_or_nothing "a.py" (.error "boom") (fun _ => .error "unused")
      ⟨.error (), .error (), .error ()⟩ (by decide)).2.2.2.2⟩

/-- C6.  Code evaluation at the claim's own scenario: an empty
repository (the index-vs-HEAD diff raised `GitCommandError`) with one
staged file `a.py` of two lines.  The patch body does prefix each
content line with `+`, but the reported addition count is **1**, not
the 2 additions the claim states: `diff_content.count("\n+")` misses
the `+` line at the very start of the synthesized patch. -/
theorem c6_initial_commit_addition_count :
    get_staged_diff (.error ()) [("a.py", .ok "line1\nline2")] =
      [{ file_path := "a.py", change_type := "A", additions := 1, deletions := 0,
         diff_content := "+line1\n+line2", old_path := none }] := by
  decide

/-- C8.  Writing to an existing target without overwrite appends the
test only if `def <test_name>` does not already occur in the file, and
otherwise returns the non-fatal `false` outcome leaving the content
unchanged; a fresh path gets exactly the framework imports followed by
the test body. -/
theorem c8_write_test_idempotent (test : GeneratedTest) (c : String) :
    ((write_test_to_file test false (some c)).1 = true →
       pyContains c ("def " ++ test.test_name) = false) ∧
    (pyContains c ("def " ++ test.test_name) = true →
       write_test_to_file test false (some c) = (false, c)) ∧
    (pyContains c ("def " ++ test.test_name) = false →
       write_test_to_file test false (some c) =
         (true, c ++ "\n\n" ++ test.test_code ++ "\n")) ∧
    (write_test_to_file test false none =
       (true, get_test_imports test.framework ++ "\n\n" ++ test.test_code ++ "\n")) := by
  refine ⟨?_, ?_, ?_, rfl⟩
  · intro h
    by_cases hc : pyContains c ("def " ++ test.test_name) = true
    · simp [write_test_to_file, hc] at h
    · simpa using hc
  · intro h
    simp [write_test_to_file, h]
  · intro h
    simp [write_test_to_file, h]

/-- Witness for C8: the spec's scenario — a fresh write creates
imports-then-body, and an immediate second write of the same test
reports "already exists" and leaves the content unchanged. -/
theorem c8_write_test_idempotent_witness :
    write_test_to_file exC8test false none =
      (true, get_test_imports exC8test.framework ++ "\n\n" ++ exC8test.test_code ++ "\n") ∧
    pyContains (get_test_imports exC8test.framework ++ "\n\n" ++ exC8test.test_code ++ "\n")
        ("def " ++ exC8test.test_name) = true ∧
    write_test_to_file exC8test false
        (some (get_test_imports exC8test.framework ++ "\n\n" ++ exC8test.test_code ++ "\n")) =
      (false, get_test_imports exC8test.framework ++ "\n\n" ++ exC8test.test_code ++ "\n") :=
  ⟨(c8_write_test_idempotent exC8test "").2.2.2,
   by decide,
   (c8_write_test_idempotent exC8test
      (get_test_imports exC8test.framework ++ "\n\n" ++ exC8test.test_code ++ "\n")).2.1
     (by decide)⟩

/-- C10.  An empty change set short-circuits: score 100, a "no changes"
summary, no issues, no recommendations — and the result is the same for
every possible engine reply, i.e. the reasoning engine is never
consulted. -/
theorem c10_empty_changeset_short_circuit (reply : List Block) :
    review_staged_changes [] reply =
      .ok { overall_score := .num 100, issues := [],
            summary := .str "No staged changes to review.",
            recommendations := .arr [], diff_analyzed := "" } ∧
    review_unstaged_changes [] reply =
      .ok { overall_score := .num 100, issues := [],
            summary := .str "No unstaged changes to review.",
            recommendations := .arr [], diff_analyzed := "" } :=
  ⟨rfl, rfl⟩

/-- C3 counterexample.  The reply `"null"` is valid JSON, yet the
free-text parser raises `AttributeError` past the caller
(`None.get(...)` is not caught by
`except (json.JSONDecodeError, KeyError, ValueError)`), refuting
"never raises ... including any valid JSON". -/
theorem c3_counterexample_valid_json_raises :
    parse_review_response "null" = .error .attributeError := by
  rfl

/-- C3 (amended).  For every reply whose extracted payload fails JSON
decoding — the empty string and malformed JSON included — the parser
returns the minimal result: score 50, summary = the first 500
characters of the raw reply, zero issues and exactly one
recommendation stating the structured parse failed.  (A reply decoding
to a non-object JSON value instead raises `AttributeError`, see the
counterexample.) -/
theorem c3_decode_failure_degrades (s : String)
    (h : jsonLoads (extractJsonText s) = .error ()) :
    parse_review_response s = .ok (fallbackResult s) ∧
    (fallbackResult s).overall_score = .num 50 ∧
    (fallbackResult s).summary = .str (pyTake s 500) ∧
    (fallbackResult s).issues = [] ∧
    (fallbackResult s).recommendations =
      .arr [.str "Unable to parse structured review. See summary for details."] := by
  refine ⟨?_, rfl, rfl, rfl, rfl⟩
  simp only [parse_review_response, h]
  rfl

/-- Witness for C3 at the spec's `not json` reply. -/
theorem c3_decode_failure_degrades_witness :
    jsonLoads (extractJsonText "not json") = .error () ∧
    parse_review_response "not json" = .ok (fallbackResult "not json") :=
  ⟨by rfl, (c3_decode_failure_degrades "not json" (by rfl)).1⟩

/-- C4 counterexample.  A reply carrying both a `submit_review` tool
payload (here the empty object) and free text: the structured payload
does *not* win — `if tool_payload:` is falsy on an empty dict, so the
free-text tier runs (the summary comes from the text block, and one
parse-failure recommendation appears, unlike the structured mapping of
the same payload). -/
theorem c4_counterexample_empty_payload :
    extract_review_tool_payload exC4content = some (.obj []) ∧
    review_diffs_response [] exC4content =
      .ok { overall_score := .num 50, issues := [], summary := .str "not json",
            recommendations :=
              .arr [.str "Unable to parse structured review. See summary for details."],
            diff_analyzed := "# Code Changes Review\n\nTotal files changed: 0\n" } ∧
    build_review_result (.obj []) =
      .ok { overall_score := .num 50, issues := [], summary := .str "",
            recommendations := .arr [] } ∧
    ("not json" : String) ≠ "" := by
  refine ⟨rfl, rfl, rfl, by decide⟩

/-- C4 (amended).  The structured tier wins whenever the extracted
`submit_review` payload is truthy (in particular non-empty); the
free-text tier runs exactly when extraction yields nothing or a falsy
payload. -/
theorem c4_tier_dispatch (diffs : List DiffInfo) (content : List Block) :
    (∀ p, extract_review_tool_payload content = some p → pyTruthy p = true →
       review_diffs_response diffs content =
         (build_review_result p).map
           (fun r => { r with diff_analyzed := build_diff_context diffs })) ∧
    (∀ p, extract_review_tool_payload content = some p → pyTruthy p = false →
       review_diffs_response diffs content =
         (parse_review_response (collect_text_blocks content)).map
           (fun r => { r with diff_analyzed := build_diff_context diffs })) ∧
    (extract_review_tool_payload content = none →
       review_diffs_response diffs content =
         (parse_review_response (collect_text_blocks content)).map
           (fun r => { r with diff_analyzed := build_diff_context diffs })) := by
  refine ⟨?_, ?_, ?_⟩
  · intro p hp ht
    simp only [review_diffs_response, hp, ht]
    cases build_review_result p <;> rfl
  · intro p hp ht
    simp only [review_diffs_response, hp, ht]
    cases parse_review_response (collect_text_blocks content) <;> rfl
  · intro hp
    simp only [review_diffs_response, hp]
    cases parse_review_response (collect_text_blocks content) <;> rfl

/-- Witness for C4: a non-empty structured payload next to free text is
mapped by the structured tier. -/
theorem c4_tier_dispatch_witness :
    extract_review_tool_payload exC4structured =
      some (.obj [("overall_score", .num 80)]) ∧
    pyTruthy (.obj [("overall_score", .num 80)]) = true ∧
    review_diffs_response [] exC4structured =
      (build_review_result (.obj [("overall_score", .num 80)])).map
        (fun r => { r with diff_analyzed := build_diff_context [] }) :=
  ⟨rfl, rfl, (c4_tier_dispatch [] exC4structured).1 _ rfl rfl⟩

/-- C5 counterexample.  A payload whose single issue item lacks every
required field: the item is *not* skipped — it is retained with the
documented defaults filled in, so the parse yields one issue, not
zero. -/
theorem c5_counterexample_item_not_skipped :
    build_review_result exC5payload =
      .ok { overall_score := .num 90, issues := [defaultReviewIssue],
            summary := .str "s", recommendations := .arr [] } ∧
    (build_review_result exC5payload).toOption.map (fun r => r.issues.length) = some 1 := by
  exact ⟨rfl, rfl⟩

/-- C5 (amended).  The structured-tier mapping applies the documented
defaults to missing optional fields (score→50, text→"", lists→[];
severity→MEDIUM, category→quality and null line/code fields in each
issue item); an issue item lacking required fields is retained with
those defaults rather than skipped; and a numeric score passes through
`int(...)`, truncating non-integers toward zero. -/
theorem c5_structured_mapping_defaults :
    (∀ q : Rat, build_review_result (.obj [("overall_score", .num q)]) =
       .ok { overall_score := .num ((Int.tdiv q.num (q.den : Int) : Int) : Rat),
             issues := [], summary := .str "", recommendations := .arr [] }) ∧
    build_review_result (.obj []) =
      .ok { overall_score := .num 50, issues := [], summary := .str "",
            recommendations := .arr [] } ∧
    build_review_result (.obj [("issues", .arr [.obj []])]) =
      .ok { overall_score := .num 50, issues := [defaultReviewIssue],
            summary := .str "", recommendations := .arr [] } ∧
    pyToInt (.num (101 / 2)) = .ok 50 := by
  refine ⟨fun q => rfl, rfl, rfl, ?_⟩
  norm_num [pyToInt]
  decide

/-- Per-file step: the examples list grows by at most two. -/
theorem discoverStep_examples_le (pat : TestPatterns) (a : FileAnalysis) :
    (discoverStep pat a).examples.length ≤ pat.examples.length + 2 := by
  simp only [discoverStep]
  by_cases h : (find_test_functions a).isEmpty
  · simp [h]
  · simp only [h, Bool.not_false, if_true, List.length_append]
    have := List.length_take_le 2 (find_test_functions a)
    omega

/-- Folding the scan over a file list grows the examples list by at
most two per file. -/
theorem discover_foldl_examples_le (l : List FileAnalysis) (pat : TestPatterns) :
    (l.foldl discoverStep pat).examples.length ≤ pat.examples.length + 2 * l.length := by
  induction l generalizing pat with
  | nil => simp
  | cons a t ih =>
    calc (t.foldl discoverStep (discoverStep pat a)).examples.length
        ≤ (discoverStep pat a).examples.length + 2 * t.length := ih _
      _ ≤ pat.examples.length + 2 + 2 * t.length := by
            have := discoverStep_examples_le pat a
            omega
      _ = pat.examples.length + 2 * (t.length + 1) := by ring

/-- The framework field of the scan is the plain last-wins fold. -/
theorem discover_foldl_framework (l : List FileAnalysis) (pat : TestPatterns) :
    (l.foldl discoverStep pat).framework = l.foldl fileFrameworkStep pat.framework := by
  induction l generalizing pat with
  | nil => rfl
  | cons a t ih =>
    rw [List.foldl_cons, List.foldl_cons, ih]
    rfl

/-- C9 counterexample.  Two test files with two test functions each:
the accumulated examples list has four entries — the two-example cap is
per file, not overall. -/
theorem c9_counterexample_examples_per_file :
    (discover_test_patterns "pytest" true [exC9file, exC9file]).examples.length = 4 ∧
    ¬ ((discover_test_patterns "pytest" true [exC9file, exC9file]).examples.length ≤ 2) := by
  exact ⟨by decide, by decide⟩

/-- C9 (amended).  At most the first three discovered test files are
analyzed; the examples list holds at most two entries *per analyzed
file* (so at most six overall); the detected framework is the
last-wins fold of the known testing-framework imports over the
analyzed files; and a missing test root yields the empty pattern set
with the configured default framework. -/
theorem c9_pattern_scan_caps (d : String) (files : List FileAnalysis) :
    discover_test_patterns d true files = discover_test_patterns d true (files.take 3) ∧
    (discover_test_patterns d true files).examples.length ≤ 2 * (files.take 3).length ∧
    (discover_test_patterns d true files).framework =
      (files.take 3).foldl fileFrameworkStep d ∧
    discover_test_patterns d false files = basePatterns d := by
  refine ⟨?_, ?_, ?_, rfl⟩
  · cases files with
    | nil => rfl
    | cons a t => simp [discover_test_patterns, List.take_take]
  · cases files with
    | nil => simp [discover_test_patterns, basePatterns]
    | cons a t =>
      have h := discover_foldl_examples_le (((a :: t).take 3)) (basePatterns d)
      simp [discover_test_patterns, basePatterns] at h ⊢
      omega
  · cases files with
    | nil => rfl
    | cons a t =>
      have h := discover_foldl_framework (((a :: t).take 3)) (basePatterns d)
      simp [discover_test_patterns, basePatterns] at h ⊢
      exact h

/-- `splitNl` never returns the empty list. -/
theorem splitNl_ne_nil (cs : List Char) : splitNl cs ≠ [] := by
  cases cs with
  | nil => simp [splitNl]
  | cons a t =>
    by_cases h : a = '\n'
    · simp [splitNl, h]
    · simp only [splitNl, h, if_false]
      cases splitNl t <;> simp

/-- `splitNl` on a non-newline head extends the first line. -/
theorem splitNl_cons_ne (a : Char) (t : List Char) (h : a ≠ '\n') :
    splitNl (a :: t) = (a :: (splitNl t).headI) :: (splitNl t).tail := by
  simp only [splitNl, h, if_false]
  cases hs : splitNl t with
  | nil => exact absurd hs (splitNl_ne_nil t)
  | cons l ls => rfl

/-- Splitting after a newline-free prefix extends the first line and
keeps the remaining lines. -/
theorem splitNl_append_no_nl (m r : List Char) (h : '\n' ∉ m) :
    splitNl (m ++ r) = (m ++ (splitNl r).headI) :: (splitNl r).tail := by
  induction m with
  | nil =>
    simp only [List.nil_append]
    cases hs : splitNl r with
    | nil => exact absurd hs (splitNl_ne_nil r)
    | cons l ls => rfl
  | cons a m' ih =>
    have ha : a ≠ '\n' := by
      intro hEq
      exact h (hEq ▸ List.mem_cons_self a m')
    have hm' : '\n' ∉ m' := fun hx => h (List.mem_cons_of_mem a hx)
    rw [List.cons_append, splitNl_cons_ne a (m' ++ r) ha, ih hm']
    simp

/-- The first line of `splitNl t` is a prefix of `t`. -/
theorem splitNl_headI_starts (t : List Char) : (splitNl t).headI <+: t := by
  induction t with
  | nil => simp [splitNl]
  | cons a t ih =>
    by_cases h : a = '\n'
    · simp [splitNl, h]
    · rw [splitNl_cons_ne a t h]
      simpa [List.cons_prefix_cons] using ih

/-- Characterisation of the `str.count` heuristic: counting a pattern
`'\n' :: m` (with `m` non-empty and newline-free) counts exactly the
newline-preceded lines that start with `m`. -/
theorem pyCountAux_lines (m : List Char) (hnl : '\n' ∉ m) :
    ∀ fuel cs, cs.length ≤ fuel →
      pyCountAux fuel cs ('\n' :: m) =
        ((splitNl cs).tail.filter fun l => List.isPrefixOf m l).length := by
  intro fuel
  induction fuel with
  | zero =>
    intro cs hcs
    have : cs = [] := List.length_eq_zero.mp (Nat.le_zero.mp hcs)
    subst this
    simp [pyCountAux, splitNl]
  | succ f ih =>
    intro cs hcs
    cases cs with
    | nil => simp [pyCountAux, pyMatchesAt, List.isPrefixOf, splitNl]
    | cons a t =>
      by_cases hmatch : pyMatchesAt ('\n' :: m) (a :: t) = true
      · have ha : '\n' = a ∧ List.isPrefixOf m t = true := by
          simpa [pyMatchesAt, List.isPrefixOf] using hmatch
        obtain ⟨haEq, hpre⟩ := ha
        subst haEq
        obtain ⟨r, hr⟩ := List.isPrefixOf_iff_prefix.mp hpre
        subst hr
        have hdrop : ((('\n' : Char) :: (m ++ r)).drop ('\n' :: m).length) = r := by
          simp [List.drop_left]
        have hfuel : r.length ≤ f := by
          have := hcs
          simp [List.length_cons, List.length_append] at this
          omega
        have hstep :
            pyCountAux (f + 1) ('\n' :: (m ++ r)) ('\n' :: m) =
              1 + pyCountAux f r ('\n' :: m) := by
          rw [pyCountAux]
          rw [if_pos ⟨by simp, hmatch⟩]
          rw [hdrop]
        rw [hstep, ih r hfuel]
        have hsplit : splitNl ('\n' :: (m ++ r)) = [] :: splitNl (m ++ r) := by
          simp [splitNl]
        rw [hsplit]
        rw [splitNl_append_no_nl m r hnl]
        have hhead : List.isPrefixOf m (m ++ (splitNl r).headI) = true :=
          List.isPrefixOf_iff_prefix.mpr (List.prefix_append m _)
        simp [hhead]
        omega
      · have hstep :
            pyCountAux (f + 1) (a :: t) ('\n' :: m) = pyCountAux f t ('\n' :: m) := by
          rw [pyCountAux]
          rw [if_neg (by simp [hmatch])]
        have hfuel : t.length ≤ f := by
          simpa [List.length_cons, Nat.succ_le_succ_iff] using hcs
        rw [hstep, ih t hfuel]
        by_cases hA : a = '\n'
        · subst hA
          have hsplit : splitNl ('\n' :: t) = [] :: splitNl t := by
            simp [splitNl]
          rw [hsplit]
          have hheadno : List.isPrefixOf m (splitNl t).headI = false := by
            by_contra hcon
            have hhead : List.isPrefixOf m (splitNl t).headI = true := by
              simpa using hcon
            have h1 : m <+: (splitNl t).headI := List.isPrefixOf_iff_prefix.mp hhead
            have h2 : m <+: t := h1.trans (splitNl_headI_starts t)
            have h3 : List.isPrefixOf m t = true := List.isPrefixOf_iff_prefix.mpr h2
            apply hmatch
            simp [pyMatchesAt, List.isPrefixOf, h3]
          cases hs : splitNl t with
          | nil => exact absurd hs (splitNl_ne_nil t)
          | cons l ls =>
            have : List.isPrefixOf m l = false := by rw [hs] at hheadno; simpa using hheadno
            simp [this]
        · rw [splitNl_cons_ne a t hA]
          rfl

/-- `str.count` of `'\n' :: m` on a string, as a tail-line count. -/
theorem pyCount_tail_lines (c pat : String) (m : List Char)
    (hpat : pat.data = '\n' :: m) (hnl : '\n' ∉ m) :
    pyCount c pat = ((splitNl c.data).tail.filter fun l => List.isPrefixOf m l).length := by
  rw [pyCount, pyCountList, hpat]
  exact pyCountAux_lines m hnl c.data.length c.data le_rfl

/-- A line starting with `'+++'` starts with `'+'` (and likewise for
any repeated marker). -/
theorem isPrefixOf_single_of_triple (ch : Char) (l : List Char)
    (h : List.isPrefixOf [ch, ch, ch] l = true) : List.isPrefixOf [ch] l = true := by
  apply List.isPrefixOf_iff_prefix.mpr
  exact (show [ch] <+: [ch, ch, ch] from ⟨[ch, ch], rfl⟩).trans
    (List.isPrefixOf_iff_prefix.mp h)

/-- Counting lemma: the lines starting with a marker split into those
not also starting with the tripled marker (header lines) and the header
lines themselves. -/
theorem filter_length_split_marker (ch : Char) (l : List (List Char)) :
    (l.filter fun x => List.isPrefixOf [ch] x).length =
      (l.filter fun x => List.isPrefixOf [ch] x && !List.isPrefixOf [ch, ch, ch] x).length +
      (l.filter fun x => List.isPrefixOf [ch, ch, ch] x).length := by
  induction l with
  | nil => simp
  | cons a t ih =>
    by_cases hq : List.isPrefixOf [ch, ch, ch] a = true
    · have hp : List.isPrefixOf [ch] a = true := isPrefixOf_single_of_triple ch a hq
      simp [List.filter_cons, hp, hq, ih]
      omega
    · by_cases hp : List.isPrefixOf [ch] a = true
      · simp [List.filter_cons, hp, hq, ih]
        omega
      · simp [List.filter_cons, hp, hq, ih]

/-- The clamped `"\n+"` / `"\n+++"` difference computes exactly the
amended addition count. -/
theorem additions_count_eq (c : String) :
    max 0 ((pyCount c "\n+" : Int) - (pyCount c "\n+++" : Int)) =
      (specAddCountTail c : Int) := by
  have h1 := pyCount_tail_lines c "\n+" ['+'] rfl (by simp)
  have h2 := pyCount_tail_lines c "\n+++" ['+', '+', '+'] rfl (by simp)
  have hsplit := filter_length_split_marker '+' (splitNl c.data).tail
  rw [h1, h2]
  have hspec : specAddCountTail c =
      ((splitNl c.data).tail.filter fun l =>
        List.isPrefixOf ['+'] l && !List.isPrefixOf ['+', '+', '+'] l).length := by
    rfl
  rw [hspec]
  omega

/-- The clamped `"\n-"` / `"\n---"` difference computes exactly the
amended deletion count. -/
theorem deletions_count_eq (c : String) :
    max 0 ((pyCount c "\n-" : Int) - (pyCount c "\n---" : Int)) =
      (specDelCountTail c : Int) := by
  have h1 := pyCount_tail_lines c "\n-" ['-'] rfl (by simp)
  have h2 := pyCount_tail_lines c "\n---" ['-', '-', '-'] rfl (by simp)
  have hsplit := filter_length_split_marker '-' (splitNl c.data).tail
  rw [h1, h2]
  have hspec : specDelCountTail c =
      ((splitNl c.data).tail.filter fun l =>
        List.isPrefixOf ['-'] l && !List.isPrefixOf ['-', '-', '-'] l).length := by
    rfl
  rw [hspec]
  omega

/-- C7 counterexample.  A diff item whose patch body is the single line
`+a`: it begins with a single `+` marker and is no header line, so the
claim counts 1 addition, but the code's `"\n+"` count (which requires a
preceding newline) reports 0. -/
theorem c7_counterexample_first_line :
    (parse_diff_index [exC7item]).map (fun d => d.additions) = [0] ∧
    specAddCountAll "+a" = 1 ∧
    (0 : Int) ≠ (1 : Int) := by
  exact ⟨by decide, by decide, by decide⟩

/-- C7 (amended).  For every change record produced from a diff index,
the addition count equals the number of *newline-preceded* patch lines
beginning with `+` excluding those beginning with `+++` (a line at the
very start of the patch is never counted, and any `+++` line is
excluded, header or not), and likewise for deletions with `-` / `---`;
consequently both counts are never negative. -/
theorem c7_addition_deletion_counts (items : List DiffItem) (d : DiffInfo)
    (h : d ∈ parse_diff_index items) :
    d.additions = (specAddCountTail d.diff_content : Int) ∧
    d.deletions = (specDelCountTail d.diff_content : Int) ∧
    0 ≤ d.additions ∧ 0 ≤ d.deletions := by
  obtain ⟨item, hmem, rfl⟩ := List.mem_map.mp h
  refine ⟨additions_count_eq _, deletions_count_eq _, le_max_left 0 _, le_max_left 0 _⟩

/-- Witness for C7: the spec's header-only patch yields 0 additions and
0 deletions. -/
theorem c7_addition_deletion_counts_witness :
    exC7headerRecord ∈ parse_diff_index [exC7headerItem] ∧
    exC7headerRecord.additions = (specAddCountTail exC7headerRecord.diff_content : Int) ∧
    exC7headerRecord.deletions = (specDelCountTail exC7headerRecord.diff_content : Int) ∧
    exC7headerRecord.additions = 0 ∧ exC7headerRecord.deletions = 0 :=
  ⟨by decide,
   (c7_addition_deletion_counts [exC7headerItem] exC7headerRecord (by decide)).1,
   (c7_addition_deletion_counts [exC7headerItem] exC7headerRecord (by decide)).2.1,
   by decide, by decide⟩

end CodeReviewer
